import Mathlib

set_option linter.unusedVariables false

/-!
Shallow embedding of `custom_components/econet300/sensor.py` from the
ecoNET-300 Home Assistant integration, together with theorems settling the
frozen claims about its specification.

Snapshot values are modelled as rationals or booleans (`PyVal`); `None` is
`Option.none` at the lookup layer.  Python dicts are association lists.
The static metadata tables imported from `const.py` and the key-set tables
are external configuration and appear as parameters (`Tables`, explicit key
lists).  Raising a Python exception is modelled as `Except.error`.
-/

namespace Econet

/-- A raw Python scalar as it occurs in a data snapshot: a number (int or
float, modelled as a rational) or a boolean. -/
inductive PyVal where
  | num (q : ℚ)
  | bool (b : Bool)
  deriving DecidableEq

/-- Python truthiness of a scalar: `0` and `False` are falsy, everything
else is truthy. -/
def PyVal.truthy : PyVal → Bool
  | .num q => q != 0
  | .bool b => b

/-- A Python dict from register keys to raw values, as an association list. -/
abbrev Dict := List (String × PyVal)

/-- Python `d.get(k)`: the value of the first binding of `k` in the
association list, or `None` when the key is absent. -/
def alistGet {α : Type} (d : List (String × α)) (k : String) : Option α :=
  (d.find? (fun p => p.1 == k)).map Prod.snd

/-- Shape of `coordinator.data`: a dict from section names (`regParams`,
`sysParams`) to dicts of register values. -/
abbrev CoordinatorData := List (String × Dict)

/-- Python `coordinator.data.get(name, {})` as on lines 127-128, 184 and 206
of `sensor.py`: a missing section defaults to the empty dict. -/
def dataGet (data : CoordinatorData) (name : String) : Dict :=
  (alistGet data name).getD []

/-- Python `a or b` on the results of two `.get` calls: `None` and falsy
values select the right operand, a truthy left operand is returned as is. -/
def pyOr (a b : Option PyVal) : Option PyVal :=
  match a with
  | some v => if v.truthy then some v else b
  | none => b

/-- Line 136 of `sensor.py`: `value = reg_data.get(key) or sys_data.get(key)`. -/
def resolve_value (reg_data sys_data : Dict) (key : String) : Option PyVal :=
  pyOr (alistGet reg_data key) (alistGet sys_data key)

/-- The static key-to-metadata tables imported from `const.py`.  `const.py`
is external configuration from this module's point of view (spec section 6),
so the tables' contents are parameters of the model. -/
structure Tables where
  ENTITY_SENSOR_DEVICE_CLASS_MAP : List (String × String)
  ENTITY_CATEGORY : List (String × String)
  ENTITY_ICON : List (String × String)
  ENTITY_UNIT_MAP : List (String × String)
  STATE_CLASS_MAP : List (String × String)
  ENTITY_PRECISION : List (String × Nat)
  ENTITY_VALUE_PROCESSOR : List (String × (PyVal → PyVal))

/-- Tables with no entries: every lookup misses and takes its default. -/
def emptyTables : Tables :=
  { ENTITY_SENSOR_DEVICE_CLASS_MAP := []
    ENTITY_CATEGORY := []
    ENTITY_ICON := []
    ENTITY_UNIT_MAP := []
    STATE_CLASS_MAP := []
    ENTITY_PRECISION := []
    ENTITY_VALUE_PROCESSOR := [] }

/-- Modelled from the spec: `camel_to_snake` from `common_functions.py` is
not under `src/`; spec section 4.1 says it converts a mixed/camel-case key to
a lowercase, underscore-separated form, used purely for display-label lookup. -/
def camel_to_snake (s : String) : String :=
  String.mk (s.data.foldr
    (fun c acc => if c.isUpper then '_' :: c.toLower :: acc else c :: acc) [])

/-- The frozen dataclass `EconetSensorEntityDescription` plus the fields it
inherits from `SensorEntityDescription` that `create_entity_description`
sets.  The state class is modelled as a plain tag string, with
`SensorStateClass.MEASUREMENT` written `"measurement"`. -/
structure EconetSensorEntityDescription where
  key : String
  device_class : Option String
  entity_category : Option String
  translation_key : String
  icon : Option String
  native_unit_of_measurement : Option String
  state_class : String
  suggested_display_precision : Nat
  process_val : PyVal → PyVal

/-- Lines 95-114 of `sensor.py`: `create_entity_description(key, process_val)`.
Every field is an independent table lookup with a per-field default; the
`process_val` parameter is accepted but never used (the descriptor's
transform comes from `ENTITY_VALUE_PROCESSOR`). -/
def create_entity_description (t : Tables) (key : String)
    (process_val : PyVal → PyVal) : EconetSensorEntityDescription :=
  { key := key
    device_class := alistGet t.ENTITY_SENSOR_DEVICE_CLASS_MAP key
    entity_category := alistGet t.ENTITY_CATEGORY key
    translation_key := camel_to_snake key
    icon := alistGet t.ENTITY_ICON key
    native_unit_of_measurement := alistGet t.ENTITY_UNIT_MAP key
    state_class := (alistGet t.STATE_CLASS_MAP key).getD "measurement"
    suggested_display_precision := (alistGet t.ENTITY_PRECISION key).getD 0
    process_val := (alistGet t.ENTITY_VALUE_PROCESSOR key).getD (fun x => x) }

/-- The three entity classes passed to `create_sensors` as `entity_class`. -/
inductive EntityClass where
  | econetSensor
  | mixerSensor
  | lambdaSensors
  deriving DecidableEq

/-- A constructed sensor entity object: its class, its immutable descriptor,
the mixer index (never set by `create_sensors`, which passes no `idx`), and
the mutable current value `_attr_native_value` (initially `None`). -/
structure Entity where
  cls : EntityClass
  entity_description : EconetSensorEntityDescription
  idx : Option Nat
  native_value : Option PyVal

/-- Line 145 of `sensor.py`: the call `entity_class(entity_desc, coordinator,
api)` with exactly three arguments.  `EconetSensor.__init__` and
`LambdaSensors.__init__` take exactly these arguments and initialise
`_attr_native_value = None`; `MixerSensor.__init__` (lines 71-79) requires a
fourth positional parameter `idx` with no default, so the three-argument call
raises a `TypeError`. -/
def call_entity_class (cls : EntityClass) (desc : EconetSensorEntityDescription) :
    Except String Entity :=
  match cls with
  | .econetSensor =>
      .ok { cls := cls, entity_description := desc, idx := none, native_value := none }
  | .lambdaSensors =>
      .ok { cls := cls, entity_description := desc, idx := none, native_value := none }
  | .mixerSensor =>
      .error "TypeError: MixerSensor.__init__ missing 1 required positional argument: idx"

/-- The `for key in keys` loop of `create_sensors` (lines 130-147), as
structural recursion over the key list: a key failing the filter or
resolving to `None` in both dicts is skipped; otherwise a descriptor is
built and the entity class is called; an uncaught `TypeError` from that call
propagates out of the whole loop. -/
def create_sensors_loop (t : Tables) (reg_data sys_data : Dict)
    (entity_class : EntityClass) (process_val : PyVal → PyVal)
    (filter_condition : String → Bool) : List String → Except String (List Entity)
  | [] => .ok []
  | key :: keys =>
    if filter_condition key then
      match resolve_value reg_data sys_data key with
      | none =>
          create_sensors_loop t reg_data sys_data entity_class process_val
            filter_condition keys
      | some _ =>
          match call_entity_class entity_class
              (create_entity_description t key process_val) with
          | .error e => .error e
          | .ok entity =>
              (create_sensors_loop t reg_data sys_data entity_class process_val
                filter_condition keys).map (fun es => entity :: es)
    else
      create_sensors_loop t reg_data sys_data entity_class process_val
        filter_condition keys

/-- Lines 117-148 of `sensor.py`: `create_sensors(keys, coordinator, api,
entity_class, process_val, filter_condition)`.  The source's default
arguments are the identity transform and the always-true filter; callers
below pass them explicitly. -/
def create_sensors (t : Tables) (keys : List String) (data : CoordinatorData)
    (entity_class : EntityClass) (process_val : PyVal → PyVal)
    (filter_condition : String → Bool) : Except String (List Entity) :=
  create_sensors_loop t (dataGet data "regParams") (dataGet data "sysParams")
    entity_class process_val filter_condition keys

/-- The closure `mixer_filter` (lines 182-186): every dependent sub-key
listed in `SENSOR_MIXER_KEY.get(key, [])` must be non-null in `regParams`. -/
def mixer_filter (sensor_mixer_key : List (String × List String))
    (data : CoordinatorData) (key : String) : Bool :=
  ((alistGet sensor_mixer_key key).getD []).all
    (fun k => (alistGet (dataGet data "regParams") k).isSome)

/-- Lines 176-194 of `sensor.py`: `create_mixer_sensors` runs the generic
factory over `SENSOR_MIXER_KEY.keys()` with entity class `MixerSensor`, the
default identity transform, and `mixer_filter`.  The `SENSOR_MIXER_KEY`
table from `const.py` is a parameter. -/
def create_mixer_sensors (t : Tables) (sensor_mixer_key : List (String × List String))
    (data : CoordinatorData) : Except String (List Entity) :=
  create_sensors t (sensor_mixer_key.map Prod.fst) data .mixerSensor
    (fun x => x) (mixer_filter sensor_mixer_key data)

/-- The transform `lambda x: x / 10` passed on line 215: Python true
division, a boolean coercing to an integer as in Python. -/
def div10 (x : PyVal) : PyVal :=
  match x with
  | .num q => .num (q / 10)
  | .bool b => .num ((if b then (1 : ℚ) else 0) / 10)

/-- Lines 198-216 of `sensor.py`: `create_lambda_sensors` returns the empty
list when `coordinator.data.get("sysParams", {}).get("moduleLambdaSoftVer")`
is `None`, and otherwise runs the generic factory over the lambda key set
(`SENSOR_MAP_KEY["lambda"]` from `const.py`, a parameter) with entity class
`LambdaSensors`, `process_val = div10` and the default always-true filter. -/
def create_lambda_sensors (t : Tables) (sensor_map_key_lambda : List String)
    (data : CoordinatorData) : Except String (List Entity) :=
  if alistGet (dataGet data "sysParams") "moduleLambdaSoftVer" = none then
    .ok []
  else
    create_sensors t sensor_map_key_lambda data .lambdaSensors div10
      (fun _ => true)

/-- Lines 62-65 of `sensor.py`: `EconetSensor._sync_state(value)` stores the
transformed value in `_attr_native_value` and calls
`self.async_write_ha_state()`; the returned flag records that the re-render
signal was issued. -/
def sync_state (e : Entity) (value : PyVal) : Entity × Bool :=
  ({ e with native_value := some (e.entity_description.process_val value) }, true)

/-- A concrete snapshot used to exercise the factories on an input where an
entity is actually produced: `regParams = {tempCO: 55}`, no `sysParams`. -/
def demoData : CoordinatorData := [("regParams", [("tempCO", PyVal.num 55)])]

/-- The entity the generic factory produces from `demoData` for key
`tempCO` with class `EconetSensor`. -/
def demoEntity : Entity :=
  { cls := .econetSensor
    entity_description := create_entity_description emptyTables "tempCO" (fun x => x)
    idx := none
    native_value := none }

/-- A snapshot whose `regParams` holds only the mixer key `1` while the
dependent sub-key `mixerSet1` is present only in `sysParams`. -/
def mixData : CoordinatorData :=
  [("regParams", [("1", PyVal.num 40)]), ("sysParams", [("mixerSet1", PyVal.num 35)])]

/-!
## Helper lemmas
-/

theorem call_entity_class_ok {cls : EntityClass} {desc : EconetSensorEntityDescription}
    {e : Entity} (h : call_entity_class cls desc = .ok e) :
    e.entity_description = desc := by
  cases cls <;>
    first
      | (injection h with h2; subst h2; rfl)
      | exact absurd h (by simp [call_entity_class])

theorem resolve_value_ne_none {reg_data sys_data : Dict} {key : String}
    (h : resolve_value reg_data sys_data key ≠ none) :
    alistGet reg_data key ≠ none ∨ alistGet sys_data key ≠ none := by
  unfold resolve_value pyOr at h
  cases hr : alistGet reg_data key with
  | none => rw [hr] at h; exact Or.inr h
  | some w => exact Or.inl (by simp [hr])

/-!
## Claims
-/

/-- C2: if `regParams` maps a key to a falsy value (such as `0`) and
`sysParams` maps it to a non-null value, the generic factory's resolution
expression `reg_data.get(key) or sys_data.get(key)` yields the `sysParams`
value: the falsy `regParams` entry falls through (truthy-OR semantics). -/
theorem resolve_falsy_reg_falls_through_to_sys
    (reg_data sys_data : Dict) (key : String) (v0 v : PyVal)
    (hreg : alistGet reg_data key = some v0) (hfalsy : v0.truthy = false)
    (hsys : alistGet sys_data key = some v) :
    resolve_value reg_data sys_data key = some v
    ∧ resolve_value reg_data sys_data key = alistGet sys_data key := by
  simp [resolve_value, pyOr, hreg, hfalsy, hsys]

/-- C2 witness: with `regParams = {k: 0}` and `sysParams = {k: 7}` the value
resolves to `7`, taken from `sysParams`. -/
theorem resolve_falsy_reg_falls_through_to_sys_witness :
    resolve_value [("k", PyVal.num 0)] [("k", PyVal.num 7)] "k" = some (PyVal.num 7)
    ∧ resolve_value [("k", PyVal.num 0)] [("k", PyVal.num 7)] "k"
      = alistGet [("k", PyVal.num 7)] "k" :=
  resolve_falsy_reg_falls_through_to_sys _ _ _ _ _ rfl (by decide) rfl

/-- C5: when `moduleLambdaSoftVer` is absent or null in the `sysParams`
section, `create_lambda_sensors` returns the empty list immediately,
whatever the lambda key set and the rest of the snapshot — in particular
when the gating key appears only in `regParams`. -/
theorem lambda_factory_gated_on_sysParams
    (t : Tables) (sensor_map_key_lambda : List String) (data : CoordinatorData)
    (h : alistGet (dataGet data "sysParams") "moduleLambdaSoftVer" = none) :
    create_lambda_sensors t sensor_map_key_lambda data = .ok [] := by
  simp [create_lambda_sensors, h]

/-- C5 witness: the gating key is present (and truthy) in `regParams` only,
and the lambda key `lambdaLevel` is resolvable there, yet no entity is
created. -/
theorem lambda_factory_gated_on_sysParams_witness :
    create_lambda_sensors emptyTables ["lambdaLevel"]
      [("regParams",
        [("moduleLambdaSoftVer", PyVal.num 1), ("lambdaLevel", PyVal.num 5)])]
      = .ok [] :=
  lambda_factory_gated_on_sysParams _ _ _ rfl

/-- C7: for every non-empty key the descriptor builder succeeds (it is a
total function), and each metadata-table miss independently yields that
field's default: absent icon, entity category, unit and device class,
precision `0`, the generic measurement state class, and the identity
transform. -/
theorem create_entity_description_defaults
    (t : Tables) (key : String) (process_val : PyVal → PyVal) (hkey : key ≠ "") :
    (alistGet t.ENTITY_ICON key = none →
      (create_entity_description t key process_val).icon = none)
    ∧ (alistGet t.ENTITY_CATEGORY key = none →
      (create_entity_description t key process_val).entity_category = none)
    ∧ (alistGet t.ENTITY_UNIT_MAP key = none →
      (create_entity_description t key process_val).native_unit_of_measurement = none)
    ∧ (alistGet t.ENTITY_SENSOR_DEVICE_CLASS_MAP key = none →
      (create_entity_description t key process_val).device_class = none)
    ∧ (alistGet t.ENTITY_PRECISION key = none →
      (create_entity_description t key process_val).suggested_display_precision = 0)
    ∧ (alistGet t.STATE_CLASS_MAP key = none →
      (create_entity_description t key process_val).state_class = "measurement")
    ∧ (alistGet t.ENTITY_VALUE_PROCESSOR key = none →
      (create_entity_description t key process_val).process_val = fun x => x) := by
  refine ⟨?_, ?_, ?_, ?_, ?_, ?_, ?_⟩ <;> intro h <;>
    simp [create_entity_description, h]

/-- C7 witness: on empty tables every lookup misses, and the descriptor for
the non-empty key `tempCO` carries the defaults, the identity transform
included. -/
theorem create_entity_description_defaults_witness :
    (create_entity_description emptyTables "tempCO" (fun x => x)).icon = none
    ∧ (create_entity_description emptyTables "tempCO" (fun x => x)).suggested_display_precision = 0
    ∧ (create_entity_description emptyTables "tempCO" (fun x => x)).state_class = "measurement"
    ∧ (create_entity_description emptyTables "tempCO" (fun x => x)).process_val = fun x => x :=
  ⟨(create_entity_description_defaults emptyTables "tempCO" (fun x => x) (by decide)).1 rfl,
   (create_entity_description_defaults emptyTables "tempCO" (fun x => x) (by decide)).2.2.2.2.1 rfl,
   (create_entity_description_defaults emptyTables "tempCO" (fun x => x) (by decide)).2.2.2.2.2.1 rfl,
   (create_entity_description_defaults emptyTables "tempCO" (fun x => x) (by decide)).2.2.2.2.2.2 rfl⟩

/-- C8: `_sync_state` sets the entity's current value to the descriptor's
transform applied to the raw value and signals the host platform to
re-render; no other field of the entity (class, descriptor, mixer index) is
changed. -/
theorem sync_state_spec (e : Entity) (value : PyVal) :
    (sync_state e value).1.native_value
      = some (e.entity_description.process_val value)
    ∧ (sync_state e value).1.entity_description = e.entity_description
    ∧ (sync_state e value).1.cls = e.cls
    ∧ (sync_state e value).1.idx = e.idx
    ∧ (sync_state e value).2 = true :=
  ⟨rfl, rfl, rfl, rfl, rfl⟩

/-- C10: `create_entity_description` ignores its `process_val` argument:
two calls with different transforms yield the same descriptor, and the
descriptor's transform is exactly `ENTITY_VALUE_PROCESSOR.get(key)` with
the identity as default — a transform supplied by a caller of
`create_sensors` never influences the descriptor. -/
theorem create_entity_description_ignores_process_val
    (t : Tables) (key : String) (f g : PyVal → PyVal) :
    create_entity_description t key f = create_entity_description t key g
    ∧ (create_entity_description t key f).process_val
      = (alistGet t.ENTITY_VALUE_PROCESSOR key).getD (fun x => x) :=
  ⟨rfl, rfl⟩

/-- C4 fails on the code: evaluating the mixer factory at a snapshot where
mixer key `1` passes the filter and resolves to a non-null value shows that
the three-argument call `entity_class(entity_desc, coordinator, api)` on
line 145 raises a `TypeError` (`MixerSensor.__init__` requires a fourth
positional argument `idx`), so `create_sensors` aborts setup instead of
skipping anomalies with a log. -/
theorem create_mixer_sensors_raises_type_error :
    create_mixer_sensors emptyTables [("1", ["mixerTemp1", "mixerSet1"])]
      [("regParams",
        [("1", PyVal.num 1), ("mixerTemp1", PyVal.num 40), ("mixerSet1", PyVal.num 35)])]
      = .error "TypeError: MixerSensor.__init__ missing 1 required positional argument: idx" :=
  rfl

/-- C1 fails on the code: with `ENTITY_VALUE_PROCESSOR` lacking the lambda
key, the entity created by `create_lambda_sensors` carries the identity
transform — the `/10` transform passed as `process_val` is dropped by
`create_entity_description` — so an update with raw value `5` stores `5`,
not `5 / 10 = 1/2` as the claim requires. -/
theorem lambda_entity_transform_not_div10 :
    (create_lambda_sensors emptyTables ["lambdaLevel"]
        [("sysParams",
          [("moduleLambdaSoftVer", PyVal.num 1), ("lambdaLevel", PyVal.num 5)])]).map
      (fun es => es.map (fun e => (sync_state e (PyVal.num 5)).1.native_value))
      = .ok [some (PyVal.num 5)]
    ∧ div10 (PyVal.num 5) = PyVal.num (1 / 2)
    ∧ PyVal.num 5 ≠ PyVal.num (1 / 2) :=
  ⟨rfl, by norm_num [div10], by norm_num⟩

/-- C9: the generic factory is deterministic: two calls of `create_sensors`
with the same key list, the same unchanged snapshot and the same arguments
return entity lists of equal length whose corresponding entities carry
identical descriptors. -/
theorem create_sensors_deterministic
    (t : Tables) (keys : List String) (data : CoordinatorData)
    (entity_class : EntityClass) (process_val : PyVal → PyVal)
    (filter_condition : String → Bool) (es1 es2 : List Entity)
    (h1 : create_sensors t keys data entity_class process_val filter_condition = .ok es1)
    (h2 : create_sensors t keys data entity_class process_val filter_condition = .ok es2) :
    es1.length = es2.length
    ∧ es1.map (fun e => e.entity_description)
      = es2.map (fun e => e.entity_description) := by
  rw [h1] at h2
  injection h2 with h3
  subst h3
  exact ⟨rfl, rfl⟩

/-- C9 witness: a double run of the generic factory on `demoData` over key
`tempCO` produces the same single-entity list both times. -/
theorem create_sensors_deterministic_witness :
    ([demoEntity] : List Entity).length = ([demoEntity] : List Entity).length
    ∧ ([demoEntity] : List Entity).map (fun e => e.entity_description)
      = ([demoEntity] : List Entity).map (fun e => e.entity_description) :=
  create_sensors_deterministic emptyTables ["tempCO"] demoData .econetSensor
    (fun x => x) (fun _ => true) [demoEntity] [demoEntity] rfl rfl

theorem create_sensors_loop_skip
    {t : Tables} {reg_data sys_data : Dict} {entity_class : EntityClass}
    {process_val : PyVal → PyVal} {filter_condition : String → Bool}
    {key : String} (hf : filter_condition key = false) (keys : List String) :
    create_sensors_loop t reg_data sys_data entity_class process_val
        filter_condition (key :: keys)
      = create_sensors_loop t reg_data sys_data entity_class process_val
          filter_condition keys := by
  simp [create_sensors_loop, hf]

theorem create_sensors_loop_cons_congr
    {t : Tables} {reg_data sys_data : Dict} {entity_class : EntityClass}
    {process_val : PyVal → PyVal} {filter_condition : String → Bool}
    {k : String} {keys1 keys2 : List String}
    (h : create_sensors_loop t reg_data sys_data entity_class process_val
          filter_condition keys1
        = create_sensors_loop t reg_data sys_data entity_class process_val
            filter_condition keys2) :
    create_sensors_loop t reg_data sys_data entity_class process_val
        filter_condition (k :: keys1)
      = create_sensors_loop t reg_data sys_data entity_class process_val
          filter_condition (k :: keys2) := by
  simp only [create_sensors_loop, h]

theorem create_sensors_loop_filter_out
    {t : Tables} {reg_data sys_data : Dict} {entity_class : EntityClass}
    {process_val : PyVal → PyVal} {filter_condition : String → Bool}
    {key : String} (hf : filter_condition key = false) (keys : List String) :
    create_sensors_loop t reg_data sys_data entity_class process_val
        filter_condition (keys.filter (fun k => !(k == key)))
      = create_sensors_loop t reg_data sys_data entity_class process_val
          filter_condition keys := by
  induction keys with
  | nil => rfl
  | cons k ks ih =>
    by_cases hk : k = key
    · rw [show (k :: ks).filter (fun x => !(x == key))
            = ks.filter (fun x => !(x == key)) from by simp [List.filter_cons, hk]]
      rw [ih]
      exact (create_sensors_loop_skip
        (show filter_condition k = false from by rw [hk]; exact hf) ks).symm
    · rw [show (k :: ks).filter (fun x => !(x == key))
            = k :: ks.filter (fun x => !(x == key)) from by simp [List.filter_cons, hk]]
      exact create_sensors_loop_cons_congr ih

/-- C3: a mixer key one of whose dependent sub-keys is null in `regParams`
is skipped by the mixer factory — removing every occurrence of the key from
the iterated key list leaves the result unchanged — even when that sub-key
is present in `sysParams`; and the mixer filter consults only the
`regParams` section: any snapshot with the same `regParams` receives the
same verdict on every key. -/
theorem create_mixer_sensors_subkey_gate
    (t : Tables) (sensor_mixer_key : List (String × List String))
    (data : CoordinatorData) (key subkey : String)
    (hsub : subkey ∈ (alistGet sensor_mixer_key key).getD [])
    (hnull : alistGet (dataGet data "regParams") subkey = none) :
    (create_mixer_sensors t sensor_mixer_key data
      = create_sensors t
          ((sensor_mixer_key.map Prod.fst).filter (fun k => !(k == key))) data
          .mixerSensor (fun x => x) (mixer_filter sensor_mixer_key data))
    ∧ ∀ data2 : CoordinatorData,
        dataGet data2 "regParams" = dataGet data "regParams" →
        ∀ k : String,
          mixer_filter sensor_mixer_key data2 k
            = mixer_filter sensor_mixer_key data k := by
  have hf : mixer_filter sensor_mixer_key data key = false := by
    unfold mixer_filter
    rw [List.all_eq_false]
    exact ⟨subkey, hsub, by simp [hnull]⟩
  constructor
  · unfold create_mixer_sensors create_sensors
    exact (create_sensors_loop_filter_out hf _).symm
  · intro data2 h2 k
    unfold mixer_filter
    rw [h2]

/-- C3 witness: mixer key `1` depends on sub-key `mixerSet1`, which is null
in `regParams` and present only in `sysParams`; the factory behaves exactly
as if key `1` were not iterated at all, and the filter verdict does not
depend on `sysParams`. -/
theorem create_mixer_sensors_subkey_gate_witness :
    (create_mixer_sensors emptyTables [("1", ["mixerSet1"])] mixData
      = create_sensors emptyTables
          ((([("1", ["mixerSet1"])] : List (String × List String)).map
            Prod.fst).filter (fun k => !(k == "1"))) mixData
          .mixerSensor (fun x => x) (mixer_filter [("1", ["mixerSet1"])] mixData))
    ∧ ∀ data2 : CoordinatorData,
        dataGet data2 "regParams" = dataGet mixData "regParams" →
        ∀ k : String,
          mixer_filter [("1", ["mixerSet1"])] data2 k
            = mixer_filter [("1", ["mixerSet1"])] mixData k :=
  create_mixer_sensors_subkey_gate emptyTables [("1", ["mixerSet1"])] mixData
    "1" "mixerSet1" (by decide) (by decide)

theorem create_sensors_loop_ok_spec
    {t : Tables} {reg_data sys_data : Dict} {entity_class : EntityClass}
    {process_val : PyVal → PyVal} {filter_condition : String → Bool} :
    ∀ (keys : List String) (es : List Entity),
      create_sensors_loop t reg_data sys_data entity_class process_val
          filter_condition keys = .ok es →
      ((es.map (fun e => e.entity_description.key)).Sublist keys
        ∧ ∀ e ∈ es,
            resolve_value reg_data sys_data e.entity_description.key ≠ none) := by
  intro keys
  induction keys with
  | nil =>
    intro es h
    injection h with h2
    subst h2
    exact ⟨by simp, by simp⟩
  | cons key ks ih =>
    intro es h
    simp only [create_sensors_loop] at h
    split at h
    · split at h
      · obtain ⟨hs, hr⟩ := ih es h
        exact ⟨List.Sublist.cons key hs, hr⟩
      · rename_i v hres
        split at h
        · exact absurd h (by simp)
        · rename_i entity hcall
          cases hrec : create_sensors_loop t reg_data sys_data entity_class
              process_val filter_condition ks with
          | error err => rw [hrec] at h; simp [Except.map] at h
          | ok es2 =>
            rw [hrec] at h
            simp only [Except.map] at h
            injection h with h3
            subst h3
            obtain ⟨hs, hr⟩ := ih es2 hrec
            have hkey : entity.entity_description.key = key := by
              rw [call_entity_class_ok hcall]
              rfl
            refine ⟨?_, ?_⟩
            · simp only [List.map_cons, hkey]
              exact List.Sublist.cons₂ key hs
            · intro e he
              rcases List.mem_cons.mp he with he1 | he2
              · subst he1
                rw [hkey, hres]
                simp
              · exact hr e he2
    · obtain ⟨hs, hr⟩ := ih es h
      exact ⟨List.Sublist.cons key hs, hr⟩

/-- C6: when `create_sensors` returns a list, the keys of the returned
entities form a sublist of the input key list — so there are at most
`len(keys)` entities, in the same relative order as the input keys, with no
duplicates when the input keys are distinct — and every returned entity's
key resolves to a non-null value in at least one of the two snapshot
mappings. -/
theorem create_sensors_ok_spec
    (t : Tables) (keys : List String) (data : CoordinatorData)
    (entity_class : EntityClass) (process_val : PyVal → PyVal)
    (filter_condition : String → Bool) (es : List Entity)
    (h : create_sensors t keys data entity_class process_val filter_condition
      = .ok es) :
    (es.map (fun e => e.entity_description.key)).Sublist keys
    ∧ es.length ≤ keys.length
    ∧ (keys.Nodup → es.Nodup)
    ∧ ∀ e ∈ es,
        alistGet (dataGet data "regParams") e.entity_description.key ≠ none
        ∨ alistGet (dataGet data "sysParams") e.entity_description.key ≠ none := by
  obtain ⟨hs, hr⟩ := create_sensors_loop_ok_spec keys es h
  refine ⟨hs, ?_, ?_, ?_⟩
  · have h2 := hs.length_le
    simpa using h2
  · intro hnd
    exact List.Nodup.of_map _ (hs.nodup hnd)
  · intro e he
    exact resolve_value_ne_none (hr e he)

/-- C6 witness: a concrete run over the single key `tempCO` on `demoData`
returns one entity whose key is `tempCO`, in order, without duplicates,
and resolvable in `regParams`. -/
theorem create_sensors_ok_spec_witness :
    (([demoEntity] : List Entity).map
      (fun e => e.entity_description.key)).Sublist ["tempCO"]
    ∧ ([demoEntity] : List Entity).length ≤ (["tempCO"] : List String).length
    ∧ ((["tempCO"] : List String).Nodup → ([demoEntity] : List Entity).Nodup)
    ∧ ∀ e ∈ ([demoEntity] : List Entity),
        alistGet (dataGet demoData "regParams") e.entity_description.key ≠ none
        ∨ alistGet (dataGet demoData "sysParams") e.entity_description.key ≠ none :=
  create_sensors_ok_spec emptyTables ["tempCO"] demoData .econetSensor
    (fun x => x) (fun _ => true) [demoEntity] rfl

end Econet
